import Mathlib

/-!
# Verification of the internal link audit engine (`linkchecker.py`)

Shallow embedding of the audit engine: sitemap URL extraction
(`get_urls_from_sitemap`), the per-page link audit (`audit_page_links`)
and the orchestrating run loop.  Network and clock effects
(`requests.get`, `time.sleep`) are modelled by an oracle structure `Env`;
exceptions of the Python code are modelled with `Except`, and the
`try/except` blocks of the source become explicit matches on the
`Except` value.
-/

/-- An XML element as produced by `xml.etree.ElementTree`: a (namespace
qualified) tag, its direct text content (`None` when the element is
empty, hence `Option String`), and its child elements in document
order. -/
inductive Xml where
  | elem (tag : String) (text : Option String) (children : List Xml)

def Xml.tag : Xml → String
  | .elem t _ _ => t

def Xml.text : Xml → Option String
  | .elem _ x _ => x

def Xml.children : Xml → List Xml
  | .elem _ _ cs => cs

mutual

/-- All proper descendants of an XML element, in document (preorder)
order; this is the element sequence `ElementTree` iterates for a
`.//` path query. -/
def Xml.descendants : Xml → List Xml
  | .elem _ _ cs => xmlDescList cs

def xmlDescList : List Xml → List Xml
  | [] => []
  | c :: rest => c :: (Xml.descendants c ++ xmlDescList rest)

end

/-- The namespace-qualified tag `ElementTree` gives to a `<loc>` element
of a sitemap, i.e. the tag matched by `root.findall('.//ns:loc', namespace)`
with `ns` bound to the standard sitemap namespace. -/
def locTag : String := "\x7bhttp://www.sitemaps.org/schemas/sitemap/0.9\x7dloc"

/-- `root.findall('.//ns:loc', namespace)`: every descendant element of
the root whose qualified tag is the sitemap `loc` tag, in document
order. -/
def findall_loc (root : Xml) : List Xml :=
  root.descendants.filter (fun e => e.tag == locTag)

/-- An HTML element as seen by BeautifulSoup: tag name, `id` attribute,
`href` attribute, direct text content, and child elements in document
order. -/
inductive Html where
  | elem (tag : String) (id : Option String) (href : Option String)
      (text : String) (children : List Html)

def Html.tag : Html → String
  | .elem t _ _ _ _ => t

def Html.id : Html → Option String
  | .elem _ i _ _ _ => i

def Html.href : Html → Option String
  | .elem _ _ h _ _ => h

def Html.text : Html → String
  | .elem _ _ _ x _ => x

def Html.children : Html → List Html
  | .elem _ _ _ _ cs => cs

mutual

/-- All proper descendants of an HTML element, in document (preorder)
order; BeautifulSoup's `find` and `find_all` search this sequence. -/
def Html.descendants : Html → List Html
  | .elem _ _ _ _ cs => htmlDescList cs

def htmlDescList : List Html → List Html
  | [] => []
  | c :: rest => c :: (Html.descendants c ++ htmlDescList rest)

end

/-- BeautifulSoup's `find`: the first descendant, in document order,
satisfying the predicate, or `None`. -/
def find_html (soup : Html) (p : Html → Bool) : Option Html :=
  (soup.descendants.filter p).head?

/-- Python's `str.startswith(pre)`. -/
def pyStartsWith (s pre : String) : Bool :=
  pre.data.isPrefixOf s.data

/-- Python's `str.strip()`: remove leading and trailing whitespace. -/
def pyStrip (s : String) : String :=
  String.mk (((s.data.dropWhile Char.isWhitespace).reverse.dropWhile
    Char.isWhitespace).reverse)

/-- `link.get_text(strip=True)`: the concatenation of the stripped text
content of the element and of all its descendants, in document order. -/
def Html.getTextStrip (h : Html) : String :=
  String.join ((h :: h.descendants).map (fun e => pyStrip e.text))

/-- The `Status Code` column of a Finding: either an HTTP status code
(an integer in Python) or the string sentinel `"Error/Timeout"` written
by the `except` branch of the per-link check. -/
inductive StatusCode where
  | code (n : Nat)
  | errorTimeout
deriving DecidableEq

/-- One result row appended to `results` by `audit_page_links`
(the dict with keys Source Page / Anchor Text / Link in Body /
Status Code / Final Destination).  `sourcePage` is an `Option String`
because a sitemap `<loc>` without text makes the Python value `None`
flow in as the source URL. -/
structure Finding where
  sourcePage : Option String
  anchorText : String
  linkInBody : String
  statusCode : StatusCode
  finalDestination : String
deriving DecidableEq

/-- Outcome of `requests.get(absolute_link, ..., allow_redirects=True)`:
either a completed response, carrying the status codes of the redirect
history (`[r.status_code for r in resp.history]`), the response's own
status code and its final URL (`resp.url`), or a raised exception
(timeout, connection error, malformed response). -/
inductive LinkResult where
  | ok (history : List Nat) (statusCode : Nat) (url : String)
  | failure
deriving DecidableEq

/-- The effect oracle: the behaviour of the network and of the clock
during one run.
* `fetchPage` — `requests.get(source_url, ...)` followed by
  `BeautifulSoup(resp.text, 'html.parser')`: either the parsed document
  root (whose descendants are all elements of the page) or a raised
  exception.
* `checkLink` — `requests.get(absolute_link, ..., allow_redirects=True)`.
* `urljoin` — `urllib.parse.urljoin(source_url, href)`.
* `sleepFails src k` — whether `time.sleep(0.2)` raises after the
  `k`-th checked (non-skipped) link of page `src`.
* `fetchSitemap` — `requests.get(sitemap_url, ...)` then
  `ET.fromstring(response.content)`: `none` when the fetch raises,
  `some none` when parsing raises, `some (some root)` on success.
* `fetchPage_none` — `requests.get(None)` always raises
  (`MissingSchema`), recorded as a law of the oracle. -/
structure Env where
  fetchPage : Option String → Except Unit Html
  checkLink : String → LinkResult
  urljoin : Option String → String → String
  sleepFails : Option String → Nat → Bool
  fetchSitemap : String → Option (Option Xml)
  fetchPage_none : fetchPage none = .error ()

/-- `get_urls_from_sitemap` returns its list; whether `st.error` was
invoked on the way is the observable `errorShown`. -/
structure SitemapOut where
  urls : List (Option String)
  errorShown : Bool
deriving DecidableEq

/-- `get_urls_from_sitemap(sitemap_url)`: fetch, parse, and return
`[loc.text for loc in root.findall('.//ns:loc', namespace)]`; on any
exception, `st.error(...)` is called and `[]` is returned. -/
def get_urls_from_sitemap (env : Env) (sitemap_url : String) : SitemapOut :=
  match env.fetchSitemap sitemap_url with
  | some (some root) => ⟨(findall_loc root).map Xml.text, false⟩
  | some none => ⟨[], true⟩
  | none => ⟨[], true⟩

/-- `main_content = soup.find('main') or soup.find('article') or
soup.find('div', id='MainContent') or soup.find('body')` — BeautifulSoup
tags are truthy and `find` returns `None` on no match, so the `or` chain
is a first-defined fallback. -/
def find_main_content (soup : Html) : Option Html :=
  match find_html soup (fun e => e.tag == "main") with
  | some m => some m
  | none =>
    match find_html soup (fun e => e.tag == "article") with
    | some a => some a
    | none =>
      match find_html soup (fun e => e.tag == "div" && e.id == some "MainContent") with
      | some d => some d
      | none => find_html soup (fun e => e.tag == "body")

/-- `links = main_content.find_all('a', href=True)`: every descendant
anchor element carrying an `href` attribute, in document order. -/
def find_all_a (main_content : Html) : List Html :=
  main_content.descendants.filter (fun e => e.tag == "a" && e.href.isSome)

/-- `anchor = link.get_text(strip=True) or "[Image/No Text]"` — the empty
string is falsy in Python, so an image-only link gets the placeholder. -/
def anchor_text (link : Html) : String :=
  let t := link.getTextStrip
  if t = "" then "[Image/No Text]" else t

/-- The body of the inner `try` of the per-link loop together with its
`except` branch: issue the status request, determine initial status and
final destination, and return the Finding to append (`none` when the
initial status is exactly 200). -/
def check_one_link (env : Env) (source_url : Option String) (anchor : String)
    (absolute_link : String) : Option Finding :=
  match env.checkLink absolute_link with
  | .ok history status url =>
    let initial_status := match history with
      | h :: _ => h
      | [] => status
    let final_url := match history with
      | _ :: _ => url
      | [] => "Direct"
    if initial_status ≠ 200 then
      some { sourcePage := source_url, anchorText := anchor,
             linkInBody := absolute_link, statusCode := .code initial_status,
             finalDestination := final_url }
    else
      none
  | .failure =>
    some { sourcePage := source_url, anchorText := anchor,
           linkInBody := absolute_link, statusCode := .errorTimeout,
           finalDestination := "N/A" }

/-- The per-link loop of `audit_page_links`.  `idx` counts the sleeps
performed so far on this page (links skipped by `continue` never reach
the sleep).  A raised sleep is an exception escaping the inner
`try/except`, so it aborts the whole loop; the request trace (second
component) records each absolute link for which a status request was
issued. -/
def audit_links_loop (env : Env) (slow_mode : Bool) (source_url : Option String) :
    List Html → Nat → List Finding → List String →
      Except Unit (List Finding × List String)
  | [], _, results, trace => .ok (results, trace)
  | link :: rest, idx, results, trace =>
    let anchor := anchor_text link
    let absolute_link := env.urljoin source_url (link.href.getD "")
    if pyStartsWith absolute_link "http" then
      let results' := match check_one_link env source_url anchor absolute_link with
        | some f => results ++ [f]
        | none => results
      if slow_mode && env.sleepFails source_url idx then
        .error ()
      else
        audit_links_loop env slow_mode source_url rest (idx + 1) results'
          (trace ++ [absolute_link])
    else
      audit_links_loop env slow_mode source_url rest idx results trace

/-- The body of the outer `try` of `audit_page_links`: fetch and parse
the page, select the content region (`None.find_all` raising
`AttributeError` when no region exists), and run the per-link loop. -/
def audit_page_core (env : Env) (slow_mode : Bool) (source_url : Option String) :
    Except Unit (List Finding × List String) :=
  match env.fetchPage source_url with
  | .error e => .error e
  | .ok soup =>
    match find_main_content soup with
    | none => .error ()
    | some main_content =>
      audit_links_loop env slow_mode source_url (find_all_a main_content) 0 [] []

/-- `audit_page_links(source_url)`: the outer `except Exception` turns
any escaped exception into the return value `[]`. -/
def audit_page_links (env : Env) (slow_mode : Bool) (source_url : Option String) :
    List Finding :=
  match audit_page_core env slow_mode source_url with
  | .ok (results, _) => results
  | .error _ => []

/-- The run-audit loop: `for idx, url in enumerate(urls_to_crawl):
all_issues.extend(audit_page_links(url))`. -/
def run_audit (env : Env) (slow_mode : Bool) (urls_to_crawl : List (Option String)) :
    List Finding :=
  urls_to_crawl.foldl (fun all_issues url => all_issues ++ audit_page_links env slow_mode url) []

/-- The Sitemap (XML) audit mode:
`urls_to_crawl = get_urls_from_sitemap(input_data.strip())` followed by
the run-audit loop. -/
def run_sitemap_audit (env : Env) (slow_mode : Bool) (sitemap_url : String) :
    List Finding :=
  run_audit env slow_mode (get_urls_from_sitemap env sitemap_url).urls

/-- The net effect of one loop iteration on the result list: `none` when
the link is skipped by `continue` (resolved URL not starting with
`"http"`), otherwise the Finding decision of `check_one_link`. -/
def process_link (env : Env) (source_url : Option String) (link : Html) :
    Option Finding :=
  let absolute_link := env.urljoin source_url (link.href.getD "")
  if pyStartsWith absolute_link "http" then
    check_one_link env source_url (anchor_text link) absolute_link
  else
    none

/-- The net effect of one loop iteration on the request trace: the
resolved absolute URL when a status request is issued for this link,
`none` when the link is skipped by `continue`. -/
def link_request (env : Env) (source_url : Option String) (link : Html) :
    Option String :=
  let absolute_link := env.urljoin source_url (link.href.getD "")
  if pyStartsWith absolute_link "http" then some absolute_link else none

/-! ## General lemmas about the engine -/

/-- When no sleep ever raises (in particular whenever `slow_mode` is
off), the per-link loop completes and appends exactly one optional
Finding and one optional request per anchor, in document order. -/
theorem audit_links_loop_ok (env : Env) (slow_mode : Bool) (src : Option String)
    (hs : ∀ k, (slow_mode && env.sleepFails src k) = false) :
    ∀ (links : List Html) (idx : Nat) (results : List Finding) (trace : List String),
      audit_links_loop env slow_mode src links idx results trace =
        .ok (results ++ links.filterMap (process_link env src),
             trace ++ links.filterMap (link_request env src)) := by
  intro links
  induction links with
  | nil => intro idx results trace; simp [audit_links_loop]
  | cons a rest ih =>
    intro idx results trace
    by_cases h : pyStartsWith (env.urljoin src (a.href.getD "")) "http" = true
    · rcases hc : check_one_link env src (anchor_text a) (env.urljoin src (a.href.getD "")) with _ | f
      · simp [audit_links_loop, h, hs idx, ih, process_link, link_request, hc]
      · simp [audit_links_loop, h, hs idx, ih, process_link, link_request, hc]
    · simp [audit_links_loop, h, ih, process_link, link_request]

/-- When `slow_mode` is off, a page whose fetch and content-region
selection succeed audits exactly its anchors, in document order. -/
theorem audit_page_core_ok (env : Env) (src : Option String) (soup mc : Html)
    (hf : env.fetchPage src = .ok soup) (hm : find_main_content soup = some mc) :
    audit_page_core env false src =
      .ok ((find_all_a mc).filterMap (process_link env src),
           (find_all_a mc).filterMap (link_request env src)) := by
  have h := audit_links_loop_ok env false src (fun k => by simp) (find_all_a mc) 0 [] []
  simp only [List.nil_append] at h
  simp [audit_page_core, hf, hm, h]

/-- `audit_page_links` under the same conditions. -/
theorem audit_page_links_ok (env : Env) (src : Option String) (soup mc : Html)
    (hf : env.fetchPage src = .ok soup) (hm : find_main_content soup = some mc) :
    audit_page_links env false src = (find_all_a mc).filterMap (process_link env src) := by
  simp [audit_page_links, audit_page_core_ok env src soup mc hf hm]

/-- The run loop is the concatenation, in seed order, of the per-page
results. -/
theorem run_audit_eq_join (env : Env) (slow_mode : Bool) :
    ∀ urls, run_audit env slow_mode urls =
      (urls.map (audit_page_links env slow_mode)).flatten := by
  have aux : ∀ (urls : List (Option String)) (acc : List Finding),
      urls.foldl (fun a u => a ++ audit_page_links env slow_mode u) acc =
        acc ++ (urls.map (audit_page_links env slow_mode)).flatten := by
    intro urls
    induction urls with
    | nil => intro acc; simp
    | cons u rest ih => intro acc; simp [ih]
  intro urls
  simpa [run_audit] using aux urls []

/-- If the sleep after the next checked link raises, the per-link loop
aborts (provided some link is actually checked). -/
theorem audit_links_loop_sleep_error (env : Env) (src : Option String) :
    ∀ (links : List Html) (idx : Nat) (results : List Finding) (trace : List String),
      env.sleepFails src idx = true →
      links.filterMap (link_request env src) ≠ [] →
      audit_links_loop env true src links idx results trace = .error () := by
  intro links
  induction links with
  | nil => intro idx r t _ hne; simp at hne
  | cons a rest ih =>
    intro idx r t hsf hne
    by_cases h : pyStartsWith (env.urljoin src (a.href.getD "")) "http" = true
    · simp [audit_links_loop, h, hsf]
    · have hnone : link_request env src a = none := by simp [link_request, h]
      have : rest.filterMap (link_request env src) ≠ [] := by
        simpa [List.filterMap_cons, hnone] using hne
      simpa [audit_links_loop, h] using ih idx r t hsf this

/-! ## C1 — Finding iff initial status not 200 -/

/-- C1: for every checked link whose status request completes, a Finding
is produced if and only if the determined initial status — the first
status of the redirect history when there is one, else the response's
own status — is not exactly 200; a direct 200 contributes no Finding and
every non-200 initial status (a redirect reaching a 200 included)
contributes exactly one. -/
theorem C1_finding_iff_initial_not_200 (env : Env) (src : Option String) (link : Html)
    (hist : List Nat) (st : Nat) (fu : String)
    (hhttp : pyStartsWith (env.urljoin src (link.href.getD "")) "http" = true)
    (hreq : env.checkLink (env.urljoin src (link.href.getD "")) = .ok hist st fu) :
    (process_link env src link).isSome ↔ hist.headD st ≠ 200 := by
  cases hist with
  | nil =>
    by_cases h200 : st = 200
    · simp [process_link, check_one_link, hhttp, hreq, h200]
    · simp [process_link, check_one_link, hhttp, hreq, h200]
  | cons h t =>
    by_cases h200 : h = 200
    · simp [process_link, check_one_link, hhttp, hreq, h200]
    · simp [process_link, check_one_link, hhttp, hreq, h200]

def aC1 : Html := .elem "a" none (some "http://ok/") "home" []

def soupC1 : Html := .elem "[document]" none none ""
  [.elem "body" none none "" [aC1]]

def envC1 : Env where
  fetchPage := fun u => if u = some "http://p1/" then .ok soupC1 else .error ()
  checkLink := fun _ => .ok [] 200 "http://ok/"
  urljoin := fun _ h => h
  sleepFails := fun _ _ => false
  fetchSitemap := fun _ => none
  fetchPage_none := rfl

/-- C1 witness: a direct 200 with no redirect history produces no
Finding. -/
theorem C1_witness :
    ((process_link envC1 (some "http://p1/") aC1).isSome ↔ List.headD [] 200 ≠ 200)
    ∧ process_link envC1 (some "http://p1/") aC1 = none :=
  ⟨C1_finding_iff_initial_not_200 envC1 (some "http://p1/") aC1 [] 200 "http://ok/"
      (by decide) (by decide),
   by decide⟩

/-! ## C2 — initial status and final destination of a Finding -/

/-- C2: for a completed status request, a produced Finding records as
status the first status of the redirect history when the history is
non-empty (so a 301→404 chain records 301, not 404) with the final URL
as destination, and records the response's own status with the "Direct"
marker when the history is empty. -/
theorem C2_initial_status_and_final_destination (env : Env) (src : Option String)
    (link : Html) (hist : List Nat) (st : Nat) (fu : String) (f : Finding)
    (hreq : env.checkLink (env.urljoin src (link.href.getD "")) = .ok hist st fu)
    (hf : process_link env src link = some f) :
    (hist ≠ [] → f.statusCode = .code (hist.headD st) ∧ f.finalDestination = fu)
    ∧ (hist = [] → f.statusCode = .code st ∧ f.finalDestination = "Direct") := by
  cases hh : pyStartsWith (env.urljoin src (link.href.getD "")) "http" with
  | false => simp [process_link, hh] at hf
  | true =>
    cases hist with
    | nil =>
      by_cases h200 : st = 200
      · simp [process_link, check_one_link, hh, hreq, h200] at hf
      · simp [process_link, check_one_link, hh, hreq, h200] at hf
        subst hf
        exact ⟨fun h => absurd rfl h, fun _ => ⟨rfl, rfl⟩⟩
    | cons h t =>
      by_cases h200 : h = 200
      · simp [process_link, check_one_link, hh, hreq, h200] at hf
      · simp [process_link, check_one_link, hh, hreq, h200] at hf
        subst hf
        exact ⟨fun _ => ⟨rfl, rfl⟩, fun heq => absurd heq (List.cons_ne_nil h t)⟩

def aC2 : Html := .elem "a" none (some "http://old/") "old page" []

def envC2 : Env where
  fetchPage := fun _ => .error ()
  checkLink := fun _ => .ok [301] 404 "http://gone/"
  urljoin := fun _ h => h
  sleepFails := fun _ _ => false
  fetchSitemap := fun _ => none
  fetchPage_none := rfl

def fC2 : Finding :=
  { sourcePage := some "http://p/", anchorText := "old page",
    linkInBody := "http://old/", statusCode := .code 301,
    finalDestination := "http://gone/" }

/-- C2 witness: a 301→404 redirect chain records status 301 (the first
hop), not 404, and the final destination URL. -/
theorem C2_witness :
    fC2.statusCode = .code 301 ∧ fC2.finalDestination = "http://gone/" :=
  (C2_initial_status_and_final_destination envC2 (some "http://p/") aC2 [301] 404
      "http://gone/" fC2 (by decide) (by decide)).1 (by decide)

/-! ## C3 — transport failure sentinel -/

/-- C3: when the status request fails at the transport level, exactly
one Finding is produced for that link — Error/Timeout sentinel status,
"N/A" destination — and the audit of the page's remaining links
continues around it. -/
theorem C3_transport_failure (env : Env) (src : Option String) (link : Html)
    (hhttp : pyStartsWith (env.urljoin src (link.href.getD "")) "http" = true)
    (hfail : env.checkLink (env.urljoin src (link.href.getD "")) = .failure) :
    process_link env src link =
      some { sourcePage := src, anchorText := anchor_text link,
             linkInBody := env.urljoin src (link.href.getD ""),
             statusCode := .errorTimeout, finalDestination := "N/A" }
    ∧ ∀ (soup mc : Html) (l1 l2 : List Html), env.fetchPage src = .ok soup →
        find_main_content soup = some mc → find_all_a mc = l1 ++ link :: l2 →
        audit_page_links env false src =
          l1.filterMap (process_link env src) ++
          ({ sourcePage := src, anchorText := anchor_text link,
             linkInBody := env.urljoin src (link.href.getD ""),
             statusCode := .errorTimeout, finalDestination := "N/A" } ::
            l2.filterMap (process_link env src)) := by
  have h1 : process_link env src link =
      some { sourcePage := src, anchorText := anchor_text link,
             linkInBody := env.urljoin src (link.href.getD ""),
             statusCode := .errorTimeout, finalDestination := "N/A" } := by
    simp [process_link, check_one_link, hhttp, hfail]
  refine ⟨h1, ?_⟩
  intro soup mc l1 l2 hf hm hsplit
  rw [audit_page_links_ok env src soup mc hf hm, hsplit]
  simp [List.filterMap_append, List.filterMap_cons, h1]

def aC3 : Html := .elem "a" none (some "http://unreachable/") "" []

def bodyC3 : Html := .elem "body" none none "" [aC3]

def soupC3 : Html := .elem "[document]" none none "" [bodyC3]

def envC3 : Env where
  fetchPage := fun u => if u = some "http://p/" then .ok soupC3 else .error ()
  checkLink := fun _ => .failure
  urljoin := fun _ h => h
  sleepFails := fun _ _ => false
  fetchSitemap := fun _ => none
  fetchPage_none := rfl

/-- C3 witness: an unreachable host yields exactly one Finding with the
sentinel status and "N/A" destination (and, the anchor being image-only,
the placeholder anchor text). -/
theorem C3_witness :
    audit_page_links envC3 false (some "http://p/") =
      [{ sourcePage := some "http://p/", anchorText := "[Image/No Text]",
         linkInBody := "http://unreachable/", statusCode := .errorTimeout,
         finalDestination := "N/A" }] := by
  have h := (C3_transport_failure envC3 (some "http://p/") aC3 (by decide) (by decide)).2
      soupC3 bodyC3 [] [] rfl rfl rfl
  simpa using h

/-! ## C4 — which links are discarded -/

/-- Following the spec's words for C4 ("does not begin with an HTTP/HTTPS
scheme"): a URL begins with an HTTP/HTTPS scheme when it starts with
`"http://"` or `"https://"`. -/
def spec_is_http_scheme (u : String) : Bool :=
  pyStartsWith u "http://" || pyStartsWith u "https://"

def aC4 : Html := .elem "a" none (some "httpx://foo") "x" []

def aC4mail : Html := .elem "a" none (some "mailto:someone@example.com") "mail" []

def bodyC4 : Html := .elem "body" none none "" [aC4, aC4mail]

def soupC4 : Html := .elem "[document]" none none "" [bodyC4]

/-- `urljoin` here returns the href unchanged: faithful to
`urllib.parse.urljoin` for both hrefs of this page, whose scheme differs
from the base's (`urljoin` returns such a URL unmodified). -/
def envC4 : Env where
  fetchPage := fun u => if u = some "http://p4/" then .ok soupC4 else .error ()
  checkLink := fun _ => .ok [] 404 "httpx://foo"
  urljoin := fun _ h => h
  sleepFails := fun _ _ => false
  fetchSitemap := fun _ => none
  fetchPage_none := rfl

def fC4 : Finding :=
  { sourcePage := some "http://p4/", anchorText := "x", linkInBody := "httpx://foo",
    statusCode := .code 404, finalDestination := "Direct" }

/-- C4 counterexample: the claim says a link is discarded (no status
request, no Finding) exactly when its resolved URL does not begin with
an HTTP/HTTPS scheme.  The resolved URL `httpx://foo` does not begin
with an HTTP/HTTPS scheme, yet the code — which tests only the
four-character prefix `http` — issues the status request and records a
Finding for it. -/
theorem C4_counterexample :
    spec_is_http_scheme "httpx://foo" = false
    ∧ link_request envC4 (some "http://p4/") aC4 = some "httpx://foo"
    ∧ process_link envC4 (some "http://p4/") aC4 = some fC4
    ∧ audit_page_links envC4 false (some "http://p4/") = [fC4] := by
  refine ⟨by decide, by decide, by decide, by decide⟩

/-- C4 (amended): an anchor is discarded — no status request issued, no
Finding possible — exactly when its href resolved against the page URL
does not begin with the literal four-character prefix `"http"` (so
`mailto:`, `tel:` and the like are skipped, every `http://`/`https://`
URL is checked, but so is any URL of another scheme whose name begins
with `http`). -/
theorem C4_amended_prefix_check (env : Env) (src : Option String) :
    (∀ link : Html,
      (link_request env src link).isSome =
          pyStartsWith (env.urljoin src (link.href.getD "")) "http"
      ∧ (link_request env src link = none → process_link env src link = none))
    ∧ ∀ (soup mc : Html), env.fetchPage src = .ok soup →
        find_main_content soup = some mc →
        audit_page_core env false src =
          .ok ((find_all_a mc).filterMap (process_link env src),
               (find_all_a mc).filterMap (link_request env src)) := by
  constructor
  · intro link
    cases hh : pyStartsWith (env.urljoin src (link.href.getD "")) "http" with
    | false =>
      constructor
      · simp [link_request, hh]
      · intro _; simp [process_link, hh]
    | true =>
      constructor
      · simp [link_request, hh]
      · intro hnone; simp [link_request, hh] at hnone
  · intro soup mc hf hm
    exact audit_page_core_ok env src soup mc hf hm

/-- C4 witness: on the concrete page the `mailto:` anchor is discarded
with no Finding, and the page's request trace is exactly the filter of
its anchors by the prefix test. -/
theorem C4_witness :
    (link_request envC4 (some "http://p4/") aC4mail = none →
      process_link envC4 (some "http://p4/") aC4mail = none)
    ∧ audit_page_core envC4 false (some "http://p4/") =
        .ok ((find_all_a bodyC4).filterMap (process_link envC4 (some "http://p4/")),
             (find_all_a bodyC4).filterMap (link_request envC4 (some "http://p4/"))) :=
  ⟨((C4_amended_prefix_check envC4 (some "http://p4/")).1 aC4mail).2,
   (C4_amended_prefix_check envC4 (some "http://p4/")).2 soupC4 bodyC4 rfl rfl⟩

/-! ## C5 — content-region selection -/

def aC5a : Html := .elem "a" none (some "http://dead1/") "in section" []

def aC5b : Html := .elem "a" none (some "http://dead2/") "outside" []

def secC5 : Html := .elem "section" (some "MainContent") none "" [aC5a]

def bodyC5 : Html := .elem "body" none none "" [secC5, aC5b]

def docC5 : Html := .elem "[document]" none none "" [bodyC5]

def envC5 : Env where
  fetchPage := fun u => if u = some "http://p5/" then .ok docC5 else .error ()
  checkLink := fun _ => .ok [] 404 ""
  urljoin := fun _ h => h
  sleepFails := fun _ _ => false
  fetchSitemap := fun _ => none
  fetchPage_none := rfl

/-- C5 counterexample: the claim says a document with any element
carrying id `MainContent` (and no `<main>` or `<article>`) uses that
element as the content region.  This document carries the id on a
`<section>`; the code — which looks only for a `<div>` with that id —
selects the whole body instead, and the anchor outside the
`MainContent` element is audited too. -/
theorem C5_counterexample :
    find_html docC5 (fun e => e.tag == "main") = none
    ∧ find_html docC5 (fun e => e.tag == "article") = none
    ∧ docC5.descendants = [bodyC5, secC5, aC5a, aC5b]
    ∧ secC5.id = some "MainContent"
    ∧ find_main_content docC5 = some bodyC5
    ∧ (∀ e, find_main_content docC5 = some e → e.id ≠ some "MainContent")
    ∧ audit_page_links envC5 false (some "http://p5/") =
        [{ sourcePage := some "http://p5/", anchorText := "in section",
           linkInBody := "http://dead1/", statusCode := .code 404,
           finalDestination := "Direct" },
         { sourcePage := some "http://p5/", anchorText := "outside",
           linkInBody := "http://dead2/", statusCode := .code 404,
           finalDestination := "Direct" }] := by
  refine ⟨rfl, rfl, rfl, rfl, rfl, ?_, by decide⟩
  intro e he
  injection (show some bodyC5 = some e from he) with h
  subst h
  decide

/-- C5 (amended): the content region is selected by this fallback
precedence — first `<main>` descendant; else first `<article>`; else
first `<div>` with id `MainContent` (an element of another tag carrying
that id does not qualify); else the first `<body>` — and the anchors the
audit enumerates are exactly those of the selected region, in document
order. -/
theorem C5_amended_region_selection (soup : Html) :
    (∀ m, find_html soup (fun e => e.tag == "main") = some m →
        find_main_content soup = some m)
    ∧ (find_html soup (fun e => e.tag == "main") = none →
        (∀ a, find_html soup (fun e => e.tag == "article") = some a →
            find_main_content soup = some a)
        ∧ (find_html soup (fun e => e.tag == "article") = none →
            (∀ d, find_html soup
                (fun e => e.tag == "div" && e.id == some "MainContent") = some d →
                find_main_content soup = some d)
            ∧ (find_html soup
                (fun e => e.tag == "div" && e.id == some "MainContent") = none →
                find_main_content soup = find_html soup (fun e => e.tag == "body"))))
    ∧ ∀ (env : Env) (src : Option String), env.fetchPage src = .ok soup →
        ∀ mc, find_main_content soup = some mc →
          audit_page_links env false src =
            (find_all_a mc).filterMap (process_link env src) := by
  refine ⟨?_, ?_, ?_⟩
  · intro m hm; simp [find_main_content, hm]
  · intro hmain
    constructor
    · intro a ha; simp [find_main_content, hmain, ha]
    · intro hart
      constructor
      · intro d hd; simp [find_main_content, hmain, hart, hd]
      · intro hdiv; simp [find_main_content, hmain, hart, hdiv]
  · intro env src hf mc hm
    exact audit_page_links_ok env src soup mc hf hm

def aC5w : Html := .elem "a" none (some "http://dead3/") "w" []

def divC5w : Html := .elem "div" (some "MainContent") none "" [aC5w]

def docC5w : Html := .elem "[document]" none none ""
  [.elem "body" none none "" [divC5w]]

def envC5w : Env where
  fetchPage := fun u => if u = some "http://p5w/" then .ok docC5w else .error ()
  checkLink := fun _ => .ok [] 404 ""
  urljoin := fun _ h => h
  sleepFails := fun _ _ => false
  fetchSitemap := fun _ => none
  fetchPage_none := rfl

/-- C5 witness: with no `<main>` and no `<article>`, a `<div>` with id
`MainContent` is selected ahead of the body, and exactly its anchors are
audited. -/
theorem C5_witness :
    find_main_content docC5w = some divC5w
    ∧ audit_page_links envC5w false (some "http://p5w/") =
        (find_all_a divC5w).filterMap (process_link envC5w (some "http://p5w/")) := by
  have T := C5_amended_region_selection docC5w
  have h1 : find_main_content docC5w = some divC5w := ((T.2.1 rfl).2 rfl).1 divC5w rfl
  exact ⟨h1, T.2.2 envC5w (some "http://p5w/") rfl divC5w h1⟩

/-! ## C6 — sitemap resolver -/

/-- C6: on a successfully fetched and parsed sitemap the resolver
returns one entry per `<loc>` element found anywhere in the document, in
document order; on any fetch or parse failure it reports the error and
returns the empty sequence instead of raising. -/
theorem C6_sitemap_resolver (env : Env) (u : String) :
    (∀ root, env.fetchSitemap u = some (some root) →
        get_urls_from_sitemap env u = ⟨(findall_loc root).map Xml.text, false⟩
        ∧ (get_urls_from_sitemap env u).urls.length
            = root.descendants.countP (fun e => e.tag == locTag))
    ∧ (env.fetchSitemap u = none → get_urls_from_sitemap env u = ⟨[], true⟩)
    ∧ (env.fetchSitemap u = some none → get_urls_from_sitemap env u = ⟨[], true⟩) := by
  refine ⟨?_, ?_, ?_⟩
  · intro root hr
    have h1 : get_urls_from_sitemap env u = ⟨(findall_loc root).map Xml.text, false⟩ := by
      simp [get_urls_from_sitemap, hr]
    refine ⟨h1, ?_⟩
    rw [h1]
    simp [findall_loc, List.countP_eq_length_filter]
  · intro h; simp [get_urls_from_sitemap, h]
  · intro h; simp [get_urls_from_sitemap, h]

def locA : Xml := .elem locTag (some "http://a/") []

def locB : Xml := .elem locTag (some "http://b/") []

def locC : Xml := .elem locTag (some "http://c/") []

def rootC6 : Xml := .elem "urlset" none
  [.elem "url" none [locA], .elem "url" none [.elem "nest" none [locB]],
   .elem "url" none [locC]]

def envC6 : Env where
  fetchPage := fun _ => .error ()
  checkLink := fun _ => .failure
  urljoin := fun _ h => h
  sleepFails := fun _ _ => false
  fetchSitemap := fun s => if s = "http://site/map.xml" then some (some rootC6) else some none
  fetchPage_none := rfl

/-- C6 witness: a sitemap with three `<loc>` elements (one nested
deeper) yields exactly those three URLs in document order; a malformed
sitemap yields the empty sequence with the error reported. -/
theorem C6_witness :
    get_urls_from_sitemap envC6 "http://site/map.xml" =
      ⟨[some "http://a/", some "http://b/", some "http://c/"], false⟩
    ∧ (get_urls_from_sitemap envC6 "http://site/map.xml").urls.length
        = rootC6.descendants.countP (fun e => e.tag == locTag)
    ∧ get_urls_from_sitemap envC6 "http://bad/" = ⟨[], true⟩ :=
  ⟨((C6_sitemap_resolver envC6 "http://site/map.xml").1 rootC6 rfl).1,
   ((C6_sitemap_resolver envC6 "http://site/map.xml").1 rootC6 rfl).2,
   (C6_sitemap_resolver envC6 "http://bad/").2.2 rfl⟩

/-! ## C7 — totality of the audit -/

/-- C7: no failure escapes the engine — a failing page fetch yields zero
Findings for that page, a failing link check is captured as an
error-sentinel Finding, and the run loop always processes the full seed
sequence, its report being the concatenation of every page's results. -/
theorem C7_totality (env : Env) (slow_mode : Bool) :
    (∀ src, env.fetchPage src = .error () → audit_page_links env slow_mode src = [])
    ∧ (∀ (src : Option String) (link : Html),
        pyStartsWith (env.urljoin src (link.href.getD "")) "http" = true →
        env.checkLink (env.urljoin src (link.href.getD "")) = .failure →
        process_link env src link =
          some { sourcePage := src, anchorText := anchor_text link,
                 linkInBody := env.urljoin src (link.href.getD ""),
                 statusCode := .errorTimeout, finalDestination := "N/A" })
    ∧ ∀ urls, run_audit env slow_mode urls =
        (urls.map (audit_page_links env slow_mode)).flatten := by
  refine ⟨?_, ?_, run_audit_eq_join env slow_mode⟩
  · intro src h; simp [audit_page_links, audit_page_core, h]
  · intro src link hh hfail; simp [process_link, check_one_link, hh, hfail]

def envC7 : Env where
  fetchPage := fun _ => .error ()
  checkLink := fun _ => .failure
  urljoin := fun _ h => h
  sleepFails := fun _ _ => true
  fetchSitemap := fun _ => none
  fetchPage_none := rfl

/-- C7 witness: with every fetch failing and every sleep raising, every
page still contributes a (here empty) result list and the run loop still
covers the whole seed sequence. -/
theorem C7_witness :
    audit_page_links envC7 true (some "http://down/") = []
    ∧ run_audit envC7 true [some "http://down/", none, some "http://p/"] =
        ([some "http://down/", none, some "http://p/"].map
          (audit_page_links envC7 true)).flatten :=
  ⟨(C7_totality envC7 true).1 (some "http://down/") rfl,
   (C7_totality envC7 true).2.2 [some "http://down/", none, some "http://p/"]⟩

/-! ## C8 — report order -/

/-- C8: the aggregated report lists Findings in processing order — all
Findings of an earlier seed page precede those of a later one, and
within one page Findings follow the document order of the page's
anchors. -/
theorem C8_report_order (env : Env) :
    (∀ (slow_mode : Bool) (urls : List (Option String)),
        run_audit env slow_mode urls = (urls.map (audit_page_links env slow_mode)).flatten)
    ∧ ∀ (src : Option String) (soup mc : Html), env.fetchPage src = .ok soup →
        find_main_content soup = some mc →
        audit_page_links env false src = (find_all_a mc).filterMap (process_link env src) :=
  ⟨fun slow_mode => run_audit_eq_join env slow_mode,
   fun src soup mc hf hm => audit_page_links_ok env src soup mc hf hm⟩

def aC8ok : Html := .elem "a" none (some "http://fine/") "fine" []

def aC8dead : Html := .elem "a" none (some "http://dead/") "dead" []

def bodyC8p1 : Html := .elem "body" none none "" [aC8ok, aC8dead]

def soupC8p1 : Html := .elem "[document]" none none "" [bodyC8p1]

def aC8moved : Html := .elem "a" none (some "http://moved/") "moved" []

def bodyC8p2 : Html := .elem "body" none none "" [aC8moved]

def soupC8p2 : Html := .elem "[document]" none none "" [bodyC8p2]

def envC8 : Env where
  fetchPage := fun u =>
    if u = some "http://p1/" then .ok soupC8p1
    else if u = some "http://p2/" then .ok soupC8p2
    else .error ()
  checkLink := fun l =>
    if l = "http://fine/" then .ok [] 200 "http://fine/"
    else if l = "http://dead/" then .ok [] 404 "http://dead/"
    else .ok [302] 200 "http://target/"
  urljoin := fun _ h => h
  sleepFails := fun _ _ => false
  fetchSitemap := fun _ => none
  fetchPage_none := rfl

/-- C8 witness: the end-to-end scenario — page 1 with a direct 200 link
and a direct 404 link, page 2 with a 302→200 link — reports exactly the
404 row then the 302 row. -/
theorem C8_witness :
    audit_page_links envC8 false (some "http://p1/") =
      (find_all_a bodyC8p1).filterMap (process_link envC8 (some "http://p1/"))
    ∧ run_audit envC8 false [some "http://p1/", some "http://p2/"] =
        ([some "http://p1/", some "http://p2/"].map (audit_page_links envC8 false)).flatten
    ∧ run_audit envC8 false [some "http://p1/", some "http://p2/"] =
        [{ sourcePage := some "http://p1/", anchorText := "dead",
           linkInBody := "http://dead/", statusCode := .code 404,
           finalDestination := "Direct" },
         { sourcePage := some "http://p2/", anchorText := "moved",
           linkInBody := "http://moved/", statusCode := .code 302,
           finalDestination := "http://target/" }] :=
  ⟨(C8_report_order envC8).2 (some "http://p1/") soupC8p1 bodyC8p1 rfl rfl,
   (C8_report_order envC8).1 false [some "http://p1/", some "http://p2/"],
   by decide⟩

/-! ## C9 — mid-page exception discards the page's findings -/

/-- C9: an exception escaping the per-link handling while a page is
being audited (here: a sleep of the pacing delay raising after the first
checked link) makes `audit_page_links` return the empty list, discarding
every Finding already accumulated for the page — indistinguishable from
a page with no problematic links. -/
theorem C9_midpage_exception (env : Env) (src : Option String) :
    (audit_page_core env true src = .error () → audit_page_links env true src = [])
    ∧ (∀ (soup mc : Html), env.fetchPage src = .ok soup →
        find_main_content soup = some mc →
        env.sleepFails src 0 = true →
        (find_all_a mc).filterMap (link_request env src) ≠ [] →
        audit_page_core env true src = .error ()
        ∧ audit_page_links env true src = []) := by
  constructor
  · intro h; simp [audit_page_links, h]
  · intro soup mc hf hm hsf hne
    have hcore : audit_page_core env true src = .error () := by
      rw [audit_page_core, hf]
      simp only [hm]
      exact audit_links_loop_sleep_error env src (find_all_a mc) 0 [] [] hsf hne
    exact ⟨hcore, by simp [audit_page_links, hcore]⟩

def aC9 : Html := .elem "a" none (some "http://dead9/") "nine" []

def bodyC9 : Html := .elem "body" none none "" [aC9]

def soupC9 : Html := .elem "[document]" none none "" [bodyC9]

def envC9 : Env where
  fetchPage := fun u => if u = some "http://p9/" then .ok soupC9 else .error ()
  checkLink := fun _ => .ok [] 404 "http://dead9/"
  urljoin := fun _ h => h
  sleepFails := fun _ _ => true
  fetchSitemap := fun _ => none
  fetchPage_none := rfl

def envC9noSleep : Env := { envC9 with sleepFails := fun _ _ => false }

/-- C9 witness: the page's only link is a 404, so a Finding is appended;
the sleep after it raises and the whole page reports `[]` — while the
identical run without the sleep failure reports that Finding. -/
theorem C9_witness :
    (audit_page_core envC9 true (some "http://p9/") = .error ()
      ∧ audit_page_links envC9 true (some "http://p9/") = [])
    ∧ audit_page_links envC9noSleep true (some "http://p9/") =
        [{ sourcePage := some "http://p9/", anchorText := "nine",
           linkInBody := "http://dead9/", statusCode := .code 404,
           finalDestination := "Direct" }] :=
  ⟨(C9_midpage_exception envC9 (some "http://p9/")).2 soupC9 bodyC9 rfl rfl rfl
      (by decide),
   by decide⟩

/-! ## C10 — empty `<loc>` becomes a `None` seed -/

/-- C10: an empty `<loc></loc>` element contributes a `None` entry (its
missing text) to the resolver's sequence; the entry counts toward the
sequence's length and is handed to the page fetcher as a seed page
(where `requests.get(None)` raises, so the page yields no findings). -/
theorem C10_empty_loc (env : Env) (u : String) (root : Xml) (slow_mode : Bool)
    (hfetch : env.fetchSitemap u = some (some root))
    (e : Xml) (he : e ∈ findall_loc root) (ht : e.text = none) :
    none ∈ (get_urls_from_sitemap env u).urls
    ∧ (get_urls_from_sitemap env u).urls.length = (findall_loc root).length
    ∧ run_sitemap_audit env slow_mode u =
        ((get_urls_from_sitemap env u).urls.map (audit_page_links env slow_mode)).flatten
    ∧ audit_page_links env slow_mode none = [] := by
  have hurls : (get_urls_from_sitemap env u).urls = (findall_loc root).map Xml.text := by
    simp [get_urls_from_sitemap, hfetch]
  refine ⟨?_, ?_, ?_, ?_⟩
  · rw [hurls]
    have h := List.mem_map_of_mem Xml.text he
    rw [ht] at h
    exact h
  · rw [hurls]
    exact List.length_map _ _
  · rw [run_sitemap_audit]
    exact run_audit_eq_join env slow_mode _
  · simp [audit_page_links, audit_page_core, env.fetchPage_none]

def locC10 : Xml := .elem locTag none []

def rootC10 : Xml := .elem "urlset" none [.elem "url" none [locC10]]

def envC10 : Env where
  fetchPage := fun _ => .error ()
  checkLink := fun _ => .failure
  urljoin := fun _ h => h
  sleepFails := fun _ _ => false
  fetchSitemap := fun _ => some (some rootC10)
  fetchPage_none := rfl

/-- C10 witness: a sitemap whose single `<loc>` is empty yields the
sequence `[none]`, of length one, whose entry is audited (and skipped,
the fetch of `None` raising). -/
theorem C10_witness :
    none ∈ (get_urls_from_sitemap envC10 "http://sm/").urls
    ∧ (get_urls_from_sitemap envC10 "http://sm/").urls.length = (findall_loc rootC10).length
    ∧ run_sitemap_audit envC10 false "http://sm/" =
        ((get_urls_from_sitemap envC10 "http://sm/").urls.map
          (audit_page_links envC10 false)).flatten
    ∧ audit_page_links envC10 false none = [] :=
  C10_empty_loc envC10 "http://sm/" rootC10 false rfl locC10
    (show locC10 ∈ ([locC10] : List Xml) from List.Mem.head _) rfl
